import Mathlib

/-!
Shallow embedding of the api-metering-library batching/flush subsystem.

The embedding models `BatchedUsageRecordStrategy` (recordUsage, dispose,
flushBatch, flushAllBatches), `ImmediateMeterEventStrategy`, the
`StripeApiError` wrapping logic of src/types/errors.ts, and the
constructor defaulting.  External collaborators (the subscription
resolver and the Stripe backend) are passed in as functions; the calls
made to the backend are collected in an explicit log so that "exactly
one backend call" style properties can be stated.  JavaScript thrown
errors are modelled by the `JsError` record (message plus the optional
structured code / statusCode fields that the wrapping code reads).
-/

namespace ApiMetering

/-- Mirrors the `StripeUsageAction` enum of src/stripe/types.ts. -/
inductive StripeUsageAction where
  | increment
  | set
deriving DecidableEq, Repr

/-- Mirrors the `StripeAggregationMethod` enum of src/stripe/types.ts
(only `SUM` is used by the strategies). -/
inductive StripeAggregationMethod where
  | sum
  | lastDuringPeriod
  | max
  | lastEver
deriving DecidableEq, Repr

/-- A JavaScript `Error` as seen by the catch blocks: a message plus the
optional structured `code` / `statusCode` properties the wrapping code
reads off it. -/
structure JsError where
  message : String
  code : Option String
  statusCode : Option Int
deriving DecidableEq, Repr

/-- JavaScript truthiness of the optional `code` string: present and
non-empty. -/
def truthyCode : Option String → Bool
  | none => false
  | some s => !(s = "")

/-- JavaScript truthiness of the optional `statusCode` number: present
and non-zero. -/
def truthyStatus : Option Int → Bool
  | none => false
  | some n => !(n = 0)

/-- Mirrors the `StripeApiError` class of src/types/errors.ts: message,
optional stripeCode / statusCode extracted from the details object, and
the original cause. -/
structure StripeApiError where
  message : String
  stripeCode : Option String
  statusCode : Option Int
  cause : JsError
deriving DecidableEq, Repr

/-- The shared wrap pattern of ImmediateMeterEventStrategy.recordUsage and
BatchedUsageRecordStrategy.flushBatch: build
`errorDetails = code && statusCode ? { code, statusCode } : null` and pass
it to the `StripeApiError` constructor, which copies `code`/`statusCode`
only when the details object is non-null.  The original error is always
attached as the cause. -/
def mkStripeApiError (message : String) (e : JsError) : StripeApiError :=
  if truthyCode e.code && truthyStatus e.statusCode then
    { message := message, stripeCode := e.code, statusCode := e.statusCode, cause := e }
  else
    { message := message, stripeCode := none, statusCode := none, cause := e }

/-- Mirrors the `BatchedUsageRecord` interface of
src/stripe/batched-usage-record-strategy.ts. -/
structure BatchedUsageRecord where
  customerId : String
  usageValue : Int
  apiEndpoint : Option String
  timestamp : Nat
deriving DecidableEq, Repr

/-- The `pendingUsage : Map<string, BatchedUsageRecord[]>` field, as an
insertion-ordered association list with at most one entry per key. -/
abbrev BatchStore := List (String × List BatchedUsageRecord)

/-- Models `Map.get` on the pending-usage map. -/
def lookupBatch : BatchStore → String → Option (List BatchedUsageRecord)
  | [], _ => none
  | (k, v) :: rest, key => if k = key then some v else lookupBatch rest key

/-- Models `Map.set` on the pending-usage map: update in place when the key is
present, append at the end otherwise (JavaScript Map insertion order). -/
def setBatch : BatchStore → String → List BatchedUsageRecord → BatchStore
  | [], key, v => [(key, v)]
  | (k, w) :: rest, key, v =>
    if k = key then (k, v) :: rest else (k, w) :: setBatch rest key v

/-- Models `Array.from(this.pendingUsage.keys())`. -/
def storeKeys (store : BatchStore) : List String := store.map Prod.fst

/-- One call to `stripe.subscriptionItems.createUsageRecord`. -/
structure UsageRecordCall where
  subscriptionItemId : String
  quantity : Int
  timestamp : Nat
  action : StripeUsageAction
deriving DecidableEq, Repr

/-- The backend reporter behind `createUsageRecord`: given the
subscription item id, quantity, timestamp (seconds) and action, it either
acknowledges or fails with a JavaScript error. -/
abbrev UsageBackend := String → Int → Nat → StripeUsageAction → Except JsError Unit

/-- The resolver behind the overridable `getSubscriptionItemId` hook:
customer id to subscription item id, may throw. -/
abbrev Resolver := String → Except JsError String

/-- Models `usageRecords.reduce((sum, record) => sum + record.usageValue, 0)`. -/
def totalUsage (recs : List BatchedUsageRecord) : Int :=
  recs.foldl (fun s r => s + r.usageValue) 0

/-- The message built by the catch block of flushBatch. -/
def flushErrorMessage (key : String) (e : JsError) : String :=
  "Failed to flush usage records for subscription item " ++ key ++ ": " ++ e.message

/-- Result of one flushBatch invocation: the store after the call, the
backend calls that were issued, and the error thrown (if any). -/
structure FlushResult where
  store : BatchStore
  calls : List UsageRecordCall
  error : Option StripeApiError
deriving DecidableEq, Repr

/-- BatchedUsageRecordStrategy.flushBatch: no-op on an absent or empty
batch; otherwise aggregate the batch into one quantity, issue exactly one
`createUsageRecord` call with the current time in seconds and action
increment, clear the batch on success (`usageRecords.length = 0`), and on
failure leave the batch untouched and throw a `StripeApiError` built by
the shared wrap pattern.  `now` is `Date.now()` in milliseconds. -/
def flushBatch (backend : UsageBackend) (now : Nat) (store : BatchStore)
    (key : String) : FlushResult :=
  match lookupBatch store key with
  | none => ⟨store, [], none⟩
  | some recs =>
    if recs.isEmpty then ⟨store, [], none⟩
    else
      let q := totalUsage recs
      let call : UsageRecordCall := ⟨key, q, now / 1000, StripeUsageAction.increment⟩
      match backend key q (now / 1000) StripeUsageAction.increment with
      | Except.ok _ => ⟨setBatch store key [], [call], none⟩
      | Except.error e =>
        ⟨store, [call], some (mkStripeApiError (flushErrorMessage key e) e)⟩

/-- Result of a full sweep: the store afterwards, all backend calls
issued, and the per-key errors that were caught and reported to
`console.error` (each tagged with its subscription item id, as in the
log line).  The sweep itself never throws. -/
structure SweepResult where
  store : BatchStore
  calls : List UsageRecordCall
  reported : List (String × StripeApiError)
deriving DecidableEq, Repr

/-- The loop body of flushAllBatches over the snapshot of keys: flush
each key in turn, catching and reporting any error, then continue. -/
def flushKeys (backend : UsageBackend) (now : Nat) :
    List String → BatchStore → SweepResult
  | [], store => ⟨store, [], []⟩
  | key :: rest, store =>
    let r := flushBatch backend now store key
    let s := flushKeys backend now rest r.store
    ⟨s.store, r.calls ++ s.calls,
      (match r.error with
       | none => []
       | some e => [(key, e)]) ++ s.reported⟩

/-- BatchedUsageRecordStrategy.flushAllBatches: snapshot the keys present
in the store, then attempt a flush for each one, reporting (never
re-throwing) per-key failures. -/
def flushAllBatches (backend : UsageBackend) (now : Nat)
    (store : BatchStore) : SweepResult :=
  flushKeys backend now (storeKeys store) store

/-- The configuration fields of `BatchedUsageRecordConfig` that the
strategy constructor reads (src/interfaces/config.ts). -/
structure BatchedUsageRecordConfig where
  batchIntervalMs : Option Nat
  maxBatchSize : Option Nat
  flushOnDispose : Option Bool
deriving DecidableEq, Repr

/-- Models `config.field || default`: an absent value and a falsy (zero) value
both fall back to the default. -/
def jsOrDefault (v : Option Nat) (d : Nat) : Nat :=
  match v with
  | none => d
  | some n => if n = 0 then d else n

/-- The mutable state of a `BatchedUsageRecordStrategy` instance plus its
resolved configuration.  `flushInterval` records whether the recurring
timer handle is live. -/
structure BatchedStrategy where
  batchIntervalMs : Nat
  maxBatchSize : Nat
  flushOnDispose : Bool
  pendingUsage : BatchStore
  flushInterval : Bool
  disposed : Bool
deriving DecidableEq, Repr

/-- The BatchedUsageRecordStrategy constructor: substitute defaults
(60000 ms, 100 records) for absent or falsy interval/size values, default
`flushOnDispose` to true unless it is literally false, start with an
empty store, an armed timer and the Active state. -/
def mkBatchedStrategy (config : BatchedUsageRecordConfig) : BatchedStrategy :=
  { batchIntervalMs := jsOrDefault config.batchIntervalMs 60000
    maxBatchSize := jsOrDefault config.maxBatchSize 100
    flushOnDispose :=
      match config.flushOnDispose with
      | some false => false
      | _ => true
    pendingUsage := []
    flushInterval := true
    disposed := false }

/-- The distinct error kinds recordUsage can throw: the plain lifecycle
`Error`, an `InvalidInputError`, a `StripeApiError` propagated from the
size-triggered flush, or a resolver error re-thrown unchanged. -/
inductive RecordError where
  | lifecycle (message : String)
  | invalidInput (message : String)
  | stripeApi (e : StripeApiError)
  | resolver (e : JsError)
deriving DecidableEq, Repr

/-- Result of one recordUsage invocation on the batched strategy. -/
structure RecordResult where
  strategy : BatchedStrategy
  calls : List UsageRecordCall
  error : Option RecordError
deriving DecidableEq, Repr

/-- BatchedUsageRecordStrategy.recordUsage: reject when disposed, on an
empty customer id, or on a non-positive usage value; resolve the
subscription item id (a thrown resolver error propagates); append a new
record to that key's batch (creating it when absent); and when the batch
length has reached maxBatchSize, synchronously flush that single key's
batch before returning. -/
def recordUsage (resolver : Resolver) (backend : UsageBackend) (now : Nat)
    (st : BatchedStrategy) (customerId : String) (usageValue : Int)
    (apiEndpoint : Option String) : RecordResult :=
  if st.disposed then
    ⟨st, [], some (RecordError.lifecycle
      "Strategy has been disposed and cannot record usage")⟩
  else if customerId = "" then
    ⟨st, [], some (RecordError.invalidInput "Customer ID is required")⟩
  else if usageValue ≤ 0 then
    ⟨st, [], some (RecordError.invalidInput
      "Usage value must be greater than zero")⟩
  else
    match resolver customerId with
    | Except.error e => ⟨st, [], some (RecordError.resolver e)⟩
    | Except.ok subscriptionItemId =>
      let recs := (lookupBatch st.pendingUsage subscriptionItemId).getD []
      let recs' := recs ++ [⟨customerId, usageValue, apiEndpoint, now⟩]
      let store' := setBatch st.pendingUsage subscriptionItemId recs'
      if st.maxBatchSize ≤ recs'.length then
        let r := flushBatch backend now store' subscriptionItemId
        ⟨{ st with pendingUsage := r.store }, r.calls,
          r.error.map RecordError.stripeApi⟩
      else
        ⟨{ st with pendingUsage := store' }, [], none⟩

/-- Result of one dispose invocation: dispose never throws, so there is
no error component; reported errors are the ones console-logged by the
sweep. -/
structure DisposeResult where
  strategy : BatchedStrategy
  calls : List UsageRecordCall
  reported : List (String × StripeApiError)
deriving DecidableEq, Repr

/-- BatchedUsageRecordStrategy.dispose: return immediately when already
disposed; otherwise clear the recurring timer, run flushAllBatches when
`flushOnDispose` is set (any failure being caught and reported), and mark
the strategy disposed. -/
def dispose (backend : UsageBackend) (now : Nat)
    (st : BatchedStrategy) : DisposeResult :=
  if st.disposed then ⟨st, [], []⟩
  else
    let st1 := { st with flushInterval := false }
    if st.flushOnDispose then
      let s := flushAllBatches backend now st1.pendingUsage
      ⟨{ st1 with pendingUsage := s.store, disposed := true }, s.calls, s.reported⟩
    else
      ⟨{ st1 with disposed := true }, [], []⟩

/-- One call to `stripe.billingPortal.meterEvents.create` as issued by
the immediate strategy. -/
structure MeterEventCall where
  customer : String
  value : Int
  action : StripeUsageAction
  aggregationMethod : StripeAggregationMethod
  idempotencyKey : String
  apiEndpoint : String
deriving DecidableEq, Repr

/-- The backend behind `meterEvents.create`. -/
abbrev MeterBackend := MeterEventCall → Except JsError Unit

/-- The state of an `ImmediateMeterEventStrategy` instance: the resolved
idempotency-key base string (`idempotencyKeyPrefix` in the source) and
the disposed flag. -/
structure ImmediateStrategy where
  idempotencyBase : String
  disposed : Bool
deriving DecidableEq, Repr

/-- The message built by the catch block of the immediate strategy's
recordUsage. -/
def immediateErrorMessage (customerId : String) (e : JsError) : String :=
  "Failed to record meter event for customer " ++ customerId ++ ": " ++ e.message

/-- Result of one recordUsage invocation on the immediate strategy. -/
structure ImmediateResult where
  strategy : ImmediateStrategy
  calls : List MeterEventCall
  error : Option RecordError
deriving DecidableEq, Repr

/-- ImmediateMeterEventStrategy.recordUsage: the same three precondition
checks as the batched strategy, then exactly one backend call carrying a
per-call idempotency key and the endpoint label (defaulting to the
`not_specified` sentinel); a backend failure is wrapped by the shared
`StripeApiError` pattern. -/
def immediateRecordUsage (backend : MeterBackend) (now : Nat)
    (st : ImmediateStrategy) (customerId : String) (usageValue : Int)
    (apiEndpoint : Option String) : ImmediateResult :=
  if st.disposed then
    ⟨st, [], some (RecordError.lifecycle
      "Strategy has been disposed and cannot record usage")⟩
  else if customerId = "" then
    ⟨st, [], some (RecordError.invalidInput "Customer ID is required")⟩
  else if usageValue ≤ 0 then
    ⟨st, [], some (RecordError.invalidInput
      "Usage value must be greater than zero")⟩
  else
    let idempotencyKey :=
      st.idempotencyBase ++ "_" ++ customerId ++ "_" ++ toString now
    let call : MeterEventCall :=
      ⟨customerId, usageValue, StripeUsageAction.increment,
        StripeAggregationMethod.sum, idempotencyKey,
        apiEndpoint.getD "not_specified"⟩
    match backend call with
    | Except.ok _ => ⟨st, [call], none⟩
    | Except.error e =>
      ⟨st, [call], some (RecordError.stripeApi
        (mkStripeApiError (immediateErrorMessage customerId e) e))⟩

/-- ImmediateMeterEventStrategy.dispose: only flips the disposed flag. -/
def immediateDispose (st : ImmediateStrategy) : ImmediateStrategy :=
  { st with disposed := true }

/-! Concrete sample data used by the closed witness theorems. -/

/-- A pending record for customer cus_a with the given quantity. -/
def sampleRecord (v : Int) : BatchedUsageRecord := ⟨"cus_a", v, none, 0⟩

/-- A backend that always acknowledges. -/
def okBackend : UsageBackend := fun _ _ _ _ => Except.ok ()

/-- A backend that always fails with the given error. -/
def constFailUsage (e : JsError) : UsageBackend := fun _ _ _ _ => Except.error e

/-- A store holding three unit records under si_1. -/
def sampleStore : BatchStore := [("si_1", [sampleRecord 1, sampleRecord 1, sampleRecord 1])]

/-- A structured backend failure carrying both a code and a status. -/
def sampleErr : JsError := ⟨"Stripe API error", some "card_declined", some 402⟩

/-- A backend failure carrying only a code and no status. -/
def codeOnlyErr : JsError := ⟨"rate limited", some "rate_limit", none⟩

/-- A backend that fails on si_err and acknowledges every other key. -/
def mixedBackend : UsageBackend := fun key _ _ _ =>
  if key = "si_err" then Except.error sampleErr else Except.ok ()

/-- A two-key store whose first key will hit the failing backend. -/
def mixedStore : BatchStore :=
  [("si_err", [sampleRecord 2]), ("si_ok", [sampleRecord 5])]

/-- A resolver that maps every customer to si_1. -/
def keyResolver : Resolver := fun _ => Except.ok "si_1"

/-- A resolver that succeeds with the empty string. -/
def emptyKeyResolver : Resolver := fun _ => Except.ok ""

/-- A configuration with every optional field absent. -/
def defaultConfig : BatchedUsageRecordConfig := ⟨none, none, none⟩

/-- An active strategy with maxBatchSize two and an empty store. -/
def sampleStrategy2 : BatchedStrategy :=
  { batchIntervalMs := 60000, maxBatchSize := 2, flushOnDispose := true
    pendingUsage := [], flushInterval := true, disposed := false }

/-- sampleStrategy2 after one recordUsage for cus_a resolving to si_1. -/
def afterFirst : BatchedStrategy :=
  { sampleStrategy2 with pendingUsage := [("si_1", [⟨"cus_a", 1, none, 0⟩])] }

/-- An already-disposed strategy holding a pending batch. -/
def sampleDisposed : BatchedStrategy :=
  { batchIntervalMs := 60000, maxBatchSize := 100, flushOnDispose := true
    pendingUsage := sampleStore, flushInterval := false, disposed := true }

/-- An active strategy holding the sample store. -/
def sampleActive : BatchedStrategy :=
  { batchIntervalMs := 60000, maxBatchSize := 100, flushOnDispose := true
    pendingUsage := sampleStore, flushInterval := true, disposed := false }

/-- An active immediate strategy. -/
def sampleImmediate : ImmediateStrategy := ⟨"meter_event_abc", false⟩

/-- A meter backend that always acknowledges. -/
def okMeterBackend : MeterBackend := fun _ => Except.ok ()

/-- A meter backend that always fails with the given error. -/
def constFailMeter (e : JsError) : MeterBackend := fun _ => Except.error e

/-! Helper lemmas about the store operations and the flush unit. -/

theorem lookupBatch_setBatch_self (store : BatchStore) (key : String)
    (v : List BatchedUsageRecord) :
    lookupBatch (setBatch store key v) key = some v := by
  induction store with
  | nil => simp [setBatch, lookupBatch]
  | cons hd tl ih =>
    obtain ⟨k, w⟩ := hd
    by_cases hk : k = key
    · simp [setBatch, lookupBatch, hk]
    · simp [setBatch, lookupBatch, hk, ih]

theorem lookupBatch_setBatch_ne (store : BatchStore) (key : String)
    (v : List BatchedUsageRecord) (key' : String) (h : ¬key' = key) :
    lookupBatch (setBatch store key v) key' = lookupBatch store key' := by
  induction store with
  | nil =>
    simp [setBatch, lookupBatch]
    intro hk
    exact absurd hk.symm h
  | cons hd tl ih =>
    obtain ⟨k, w⟩ := hd
    by_cases hk : k = key
    · subst hk
      have : ¬k = key' := fun hkk => h (hkk.symm)
      simp [setBatch, lookupBatch, this]
    · by_cases hk' : k = key'
      · simp [setBatch, lookupBatch, hk, hk', h]
      · simp [setBatch, lookupBatch, hk, hk', ih]

theorem mem_storeKeys_of_lookup (store : BatchStore) (key : String)
    (recs : List BatchedUsageRecord) (h : lookupBatch store key = some recs) :
    key ∈ storeKeys store := by
  induction store with
  | nil => simp [lookupBatch] at h
  | cons hd tl ih =>
    obtain ⟨k, w⟩ := hd
    by_cases hk : k = key
    · simp [storeKeys, hk]
    · simp only [lookupBatch, hk, if_false] at h
      simp [storeKeys] at ih ⊢
      exact Or.inr (ih h)

theorem totalUsage_append (recs : List BatchedUsageRecord)
    (r : BatchedUsageRecord) :
    totalUsage (recs ++ [r]) = totalUsage recs + r.usageValue := by
  simp [totalUsage, List.foldl_append]

theorem flushBatch_store_cases (backend : UsageBackend) (now : Nat)
    (store : BatchStore) (key : String) :
    (flushBatch backend now store key).store = store ∨
    (flushBatch backend now store key).store = setBatch store key [] := by
  unfold flushBatch
  cases h : lookupBatch store key with
  | none => exact Or.inl rfl
  | some recs =>
    by_cases he : recs.isEmpty
    · simp [he]
    · cases hb : backend key (totalUsage recs) (now / 1000) StripeUsageAction.increment with
      | ok u => simp [he, hb]
      | error e => simp [he, hb]

theorem flushBatch_lookup_ne (backend : UsageBackend) (now : Nat)
    (store : BatchStore) (key key' : String) (h : ¬key' = key) :
    lookupBatch (flushBatch backend now store key).store key' =
      lookupBatch store key' := by
  rcases flushBatch_store_cases backend now store key with hc | hc
  · rw [hc]
  · rw [hc, lookupBatch_setBatch_ne store key [] key' h]

theorem flushBatch_calls_id (backend : UsageBackend) (now : Nat)
    (store : BatchStore) (key : String) :
    ∀ c ∈ (flushBatch backend now store key).calls,
      c.subscriptionItemId = key := by
  unfold flushBatch
  cases h : lookupBatch store key with
  | none => simp
  | some recs =>
    by_cases he : recs.isEmpty
    · simp [he]
    · cases hb : backend key (totalUsage recs) (now / 1000) StripeUsageAction.increment with
      | ok u => simp [he, hb]
      | error e => simp [he, hb]

theorem flushKeys_lookup_not_mem (backend : UsageBackend) (now : Nat)
    (keys : List String) (store : BatchStore) (key : String)
    (h : key ∉ keys) :
    lookupBatch (flushKeys backend now keys store).store key =
      lookupBatch store key := by
  induction keys generalizing store with
  | nil => rfl
  | cons k rest ih =>
    have hk : ¬key = k := fun hkk => h (by simp [hkk])
    have hrest : key ∉ rest := fun hm => h (by simp [hm])
    simp only [flushKeys]
    rw [ih _ hrest, flushBatch_lookup_ne backend now store k key hk]

theorem flushKeys_calls_not_mem (backend : UsageBackend) (now : Nat)
    (keys : List String) (store : BatchStore) (key : String)
    (h : key ∉ keys) :
    (flushKeys backend now keys store).calls.filter
      (fun c => c.subscriptionItemId == key) = [] := by
  induction keys generalizing store with
  | nil => rfl
  | cons k rest ih =>
    have hk : ¬key = k := fun hkk => h (by simp [hkk])
    have hrest : key ∉ rest := fun hm => h (by simp [hm])
    simp only [flushKeys, List.filter_append]
    rw [ih _ hrest, List.append_nil]
    refine List.filter_eq_nil_iff.2 fun c hc => ?_
    have := flushBatch_calls_id backend now store k c hc
    simp [this]
    exact fun hkk => hk hkk.symm

theorem flushKeys_reported_not_mem (backend : UsageBackend) (now : Nat)
    (keys : List String) (store : BatchStore) (key : String)
    (h : key ∉ keys) :
    (flushKeys backend now keys store).reported.filter
      (fun p => p.1 == key) = [] := by
  induction keys generalizing store with
  | nil => rfl
  | cons k rest ih =>
    have hk : ¬key = k := fun hkk => h (by simp [hkk])
    have hrest : key ∉ rest := fun hm => h (by simp [hm])
    simp only [flushKeys, List.filter_append]
    rw [ih _ hrest, List.append_nil]
    cases (flushBatch backend now store k).error with
    | none => rfl
    | some e =>
      simp
      exact fun hkk => hk hkk.symm

theorem flushKeys_cons_ne (backend : UsageBackend) (now : Nat) (k : String)
    (rest : List String) (store : BatchStore) (key : String) (hkk : ¬key = k) :
    (flushKeys backend now (k :: rest) store).store =
      (flushKeys backend now rest (flushBatch backend now store k).store).store ∧
    (flushKeys backend now (k :: rest) store).calls.filter
        (fun c => c.subscriptionItemId == key) =
      (flushKeys backend now rest
          (flushBatch backend now store k).store).calls.filter
        (fun c => c.subscriptionItemId == key) ∧
    (flushKeys backend now (k :: rest) store).reported.filter
        (fun p => p.1 == key) =
      (flushKeys backend now rest
          (flushBatch backend now store k).store).reported.filter
        (fun p => p.1 == key) := by
  have hkf : (k == key) = false := by
    cases hc : k == key with
    | false => rfl
    | true => exact absurd (eq_of_beq hc) fun hkeq => hkk hkeq.symm
  refine ⟨by simp [flushKeys], ?_, ?_⟩
  · simp only [flushKeys, List.filter_append]
    have hfilter : (flushBatch backend now store k).calls.filter
        (fun c => c.subscriptionItemId == key) = [] := by
      refine List.filter_eq_nil_iff.2 fun c hc => ?_
      have hcid := flushBatch_calls_id backend now store k c hc
      simp [hcid]
      exact fun hkeq => hkk hkeq.symm
    rw [hfilter, List.nil_append]
  · simp only [flushKeys, List.filter_append]
    cases herr : (flushBatch backend now store k).error with
    | none => simp
    | some e0 => simp [hkf]

/-- Per-key outcome of a sweep over a list of distinct keys: the key is
attempted exactly once, its calls and its reported error depend only on
its own batch and its own backend outcome, and other keys cannot block
it. -/
theorem flushKeys_mem_spec (backend : UsageBackend) (now : Nat)
    (keys : List String) (store : BatchStore) (key : String)
    (recs : List BatchedUsageRecord)
    (hmem : key ∈ keys) (hnd : keys.Nodup)
    (hrecs : lookupBatch store key = some recs) :
    ((flushKeys backend now keys store).calls.filter
        (fun c => c.subscriptionItemId == key) =
      if recs.isEmpty then []
      else [⟨key, totalUsage recs, now / 1000, StripeUsageAction.increment⟩]) ∧
    (recs = [] →
      lookupBatch (flushKeys backend now keys store).store key = some recs ∧
      (flushKeys backend now keys store).reported.filter
        (fun p => p.1 == key) = []) ∧
    (¬recs = [] →
      (∀ u, backend key (totalUsage recs) (now / 1000)
          StripeUsageAction.increment = Except.ok u →
        lookupBatch (flushKeys backend now keys store).store key = some [] ∧
        (flushKeys backend now keys store).reported.filter
          (fun p => p.1 == key) = []) ∧
      (∀ e, backend key (totalUsage recs) (now / 1000)
          StripeUsageAction.increment = Except.error e →
        lookupBatch (flushKeys backend now keys store).store key = some recs ∧
        (flushKeys backend now keys store).reported.filter
          (fun p => p.1 == key) =
          [(key, mkStripeApiError (flushErrorMessage key e) e)])) := by
  induction keys generalizing store with
  | nil => simp at hmem
  | cons k rest ih =>
    have hndk : k ∉ rest := (List.nodup_cons.1 hnd).1
    have hndr : rest.Nodup := (List.nodup_cons.1 hnd).2
    rcases List.mem_cons.1 hmem with hq | hq
    · subst hq
      by_cases hne : recs = []
      · subst hne
        have hfb : flushBatch backend now store key = ⟨store, [], none⟩ := by
          simp [flushBatch, hrecs]
        refine ⟨?_, fun _ => ⟨?_, ?_⟩, fun hc => absurd rfl hc⟩
        · simp only [flushKeys, hfb, List.filter_append]
          rw [flushKeys_calls_not_mem backend now rest store key hndk]
          simp
        · simp only [flushKeys, hfb]
          rw [flushKeys_lookup_not_mem backend now rest store key hndk]
          exact hrecs
        · simp only [flushKeys, hfb, List.filter_append]
          rw [flushKeys_reported_not_mem backend now rest store key hndk]
          simp
      · have he : recs.isEmpty = false := by simpa [List.isEmpty_iff] using hne
        cases hb : backend key (totalUsage recs) (now / 1000)
            StripeUsageAction.increment with
        | ok u =>
          have hfb : flushBatch backend now store key =
              ⟨setBatch store key [],
                [⟨key, totalUsage recs, now / 1000, StripeUsageAction.increment⟩],
                none⟩ := by
            simp [flushBatch, hrecs, he, hb]
          refine ⟨?_, fun hc => absurd hc hne, fun _ => ⟨fun u' _ => ⟨?_, ?_⟩,
            fun e' hb' => absurd hb' (by simp)⟩⟩
          · simp only [flushKeys, hfb, List.filter_append]
            rw [flushKeys_calls_not_mem backend now rest _ key hndk]
            simp [he]
          · simp only [flushKeys, hfb]
            rw [flushKeys_lookup_not_mem backend now rest _ key hndk]
            exact lookupBatch_setBatch_self store key []
          · simp only [flushKeys, hfb, List.filter_append]
            rw [flushKeys_reported_not_mem backend now rest _ key hndk]
            simp
        | error e =>
          have hfb : flushBatch backend now store key =
              ⟨store,
                [⟨key, totalUsage recs, now / 1000, StripeUsageAction.increment⟩],
                some (mkStripeApiError (flushErrorMessage key e) e)⟩ := by
            simp [flushBatch, hrecs, he, hb]
          refine ⟨?_, fun hc => absurd hc hne, fun _ =>
            ⟨fun u' hb' => absurd hb' (by simp),
             fun e' hb' => ?_⟩⟩
          · simp only [flushKeys, hfb, List.filter_append]
            rw [flushKeys_calls_not_mem backend now rest _ key hndk]
            simp [he]
          · have hee : e = e' := by
              simpa using hb'
            subst hee
            constructor
            · simp only [flushKeys, hfb]
              rw [flushKeys_lookup_not_mem backend now rest _ key hndk]
              exact hrecs
            · simp only [flushKeys, hfb, List.filter_append]
              rw [flushKeys_reported_not_mem backend now rest _ key hndk]
              simp
    · have hkk : ¬key = k := fun hkeq => hndk (hkeq ▸ hq)
      have hrecs' : lookupBatch (flushBatch backend now store k).store key =
          some recs := by
        rw [flushBatch_lookup_ne backend now store k key hkk]
        exact hrecs
      have hstep := flushKeys_cons_ne backend now k rest store key hkk
      obtain ⟨ihc, ihe, ihne⟩ :=
        ih (flushBatch backend now store k).store hq hndr hrecs'
      refine ⟨?_, fun hc => ⟨?_, ?_⟩, fun hc => ⟨fun u hb => ⟨?_, ?_⟩,
        fun e hb => ⟨?_, ?_⟩⟩⟩
      · rw [hstep.2.1]; exact ihc
      · rw [hstep.1]; exact (ihe hc).1
      · rw [hstep.2.2]; exact (ihe hc).2
      · rw [hstep.1]; exact ((ihne hc).1 u hb).1
      · rw [hstep.2.2]; exact ((ihne hc).1 u hb).2
      · rw [hstep.1]; exact ((ihne hc).2 e hb).1
      · rw [hstep.2.2]; exact ((ihne hc).2 e hb).2

theorem flushBatch_calls_nonempty (backend : UsageBackend) (now : Nat)
    (store : BatchStore) (key : String) (recs : List BatchedUsageRecord)
    (hrecs : lookupBatch store key = some recs) (hne : ¬recs = []) :
    (flushBatch backend now store key).calls =
      [⟨key, totalUsage recs, now / 1000, StripeUsageAction.increment⟩] := by
  have he : recs.isEmpty = false := by simpa [List.isEmpty_iff] using hne
  cases hb : backend key (totalUsage recs) (now / 1000)
      StripeUsageAction.increment with
  | ok u => simp [flushBatch, hrecs, he, hb]
  | error e => simp [flushBatch, hrecs, he, hb]

/-- recordUsage on an active strategy with valid input and a successful
resolution reduces to the append step followed by the conditional
size-triggered flush. -/
theorem recordUsage_active_resolved (resolver : Resolver)
    (backend : UsageBackend) (now : Nat) (st : BatchedStrategy)
    (customerId : String) (usageValue : Int) (apiEndpoint : Option String)
    (key : String)
    (hd : st.disposed = false) (hc : ¬customerId = "") (hv : 0 < usageValue)
    (hres : resolver customerId = Except.ok key) :
    recordUsage resolver backend now st customerId usageValue apiEndpoint =
      (if st.maxBatchSize ≤ ((lookupBatch st.pendingUsage key).getD [] ++
          [(⟨customerId, usageValue, apiEndpoint, now⟩ : BatchedUsageRecord)]).length then
        ⟨{ st with pendingUsage :=
            (flushBatch backend now
              (setBatch st.pendingUsage key
                ((lookupBatch st.pendingUsage key).getD [] ++
                  [(⟨customerId, usageValue, apiEndpoint, now⟩ : BatchedUsageRecord)])) key).store },
          (flushBatch backend now
            (setBatch st.pendingUsage key
              ((lookupBatch st.pendingUsage key).getD [] ++
                [(⟨customerId, usageValue, apiEndpoint, now⟩ : BatchedUsageRecord)])) key).calls,
          (flushBatch backend now
            (setBatch st.pendingUsage key
              ((lookupBatch st.pendingUsage key).getD [] ++
                [(⟨customerId, usageValue, apiEndpoint, now⟩ : BatchedUsageRecord)])) key).error.map
            RecordError.stripeApi⟩
      else
        ⟨{ st with pendingUsage :=
            (setBatch st.pendingUsage key
              ((lookupBatch st.pendingUsage key).getD [] ++
                [(⟨customerId, usageValue, apiEndpoint, now⟩ : BatchedUsageRecord)])) }, [], none⟩) := by
  have hd' : ¬(st.disposed = true) := by simp [hd]
  have hnle : ¬(usageValue ≤ 0) := not_le.mpr hv
  unfold recordUsage
  rw [if_neg hd', if_neg hc, if_neg hnle, hres]

/-- Claim C4: whenever an append performed by recordUsage makes the batch
length for the resolved key reach the configured maximum size, recordUsage
synchronously flushes that single key's batch before returning, with
aggregate quantity the sum of the batched values plus the new value; when
the threshold is not reached, recordUsage only appends and issues no
backend call. -/
theorem recordUsage_threshold_flush (resolver : Resolver)
    (backend : UsageBackend) (now : Nat) (st : BatchedStrategy)
    (customerId : String) (usageValue : Int) (apiEndpoint : Option String)
    (key : String) (recs : List BatchedUsageRecord)
    (hd : st.disposed = false) (hc : ¬customerId = "") (hv : 0 < usageValue)
    (hres : resolver customerId = Except.ok key)
    (hrecs : (lookupBatch st.pendingUsage key).getD [] = recs) :
    (recs.length + 1 < st.maxBatchSize →
      recordUsage resolver backend now st customerId usageValue apiEndpoint =
        ⟨{ st with pendingUsage := (setBatch st.pendingUsage key
            (recs ++ [⟨customerId, usageValue, apiEndpoint, now⟩])) },
          [], none⟩) ∧
    (st.maxBatchSize ≤ recs.length + 1 →
      (recordUsage resolver backend now st customerId usageValue
          apiEndpoint).calls =
        [⟨key, totalUsage recs + usageValue, now / 1000,
          StripeUsageAction.increment⟩]) := by
  have hu := recordUsage_active_resolved resolver backend now st customerId
    usageValue apiEndpoint key hd hc hv hres
  rw [hrecs] at hu
  constructor
  · intro hlt
    have hcond : ¬(st.maxBatchSize ≤
        (recs ++ [(⟨customerId, usageValue, apiEndpoint, now⟩ :
          BatchedUsageRecord)]).length) := by
      simp only [List.length_append, List.length_cons, List.length_nil]
      omega
    rw [hu, if_neg hcond]
  · intro hge
    have hcond : st.maxBatchSize ≤
        (recs ++ [(⟨customerId, usageValue, apiEndpoint, now⟩ :
          BatchedUsageRecord)]).length := by
      simp only [List.length_append, List.length_cons, List.length_nil]
      omega
    rw [hu, if_pos hcond]
    have hlook := lookupBatch_setBatch_self st.pendingUsage key
      (recs ++ [⟨customerId, usageValue, apiEndpoint, now⟩])
    have hne : ¬(recs ++ [(⟨customerId, usageValue, apiEndpoint, now⟩ :
        BatchedUsageRecord)]) = [] := by simp
    have hcalls := flushBatch_calls_nonempty backend now
      (setBatch st.pendingUsage key
        (recs ++ [⟨customerId, usageValue, apiEndpoint, now⟩])) key
      (recs ++ [⟨customerId, usageValue, apiEndpoint, now⟩]) hlook hne
    simp only [hcalls, totalUsage_append]

/-- Witness for C4: with maxBatchSize two and one record already pending
under si_1, the next recordUsage triggers exactly one flush whose
quantity is the sum of both usage values. -/
theorem recordUsage_threshold_flush_witness :
    (recordUsage keyResolver okBackend 0 afterFirst "cus_a" 2 none).calls =
      [⟨"si_1", totalUsage [⟨"cus_a", 1, none, 0⟩] + 2, 0 / 1000,
        StripeUsageAction.increment⟩] :=
  (recordUsage_threshold_flush keyResolver okBackend 0 afterFirst "cus_a" 2
    none "si_1" [⟨"cus_a", 1, none, 0⟩] rfl (by decide) (by decide) rfl
    rfl).2 (by decide)

/-- Claim C3: flushAllBatches attempts a flush for every key present in
the store at the start of the sweep exactly once each (the backend calls
attributed to a key form exactly the one aggregate call when its batch is
non-empty, and none when it is empty); a key whose flush fails has its
error caught and reported while the sweep continues, so each key's
outcome depends only on its own batch and backend result, and no failure
propagates to the caller (the sweep is a total function with no error
component). -/
theorem flushAllBatches_per_key_isolation
    (backend : UsageBackend) (now : Nat) (store : BatchStore)
    (hnd : (storeKeys store).Nodup)
    (key : String) (recs : List BatchedUsageRecord)
    (hrecs : lookupBatch store key = some recs) :
    ((flushAllBatches backend now store).calls.filter
        (fun c => c.subscriptionItemId == key) =
      if recs.isEmpty then []
      else [⟨key, totalUsage recs, now / 1000, StripeUsageAction.increment⟩]) ∧
    (recs = [] →
      lookupBatch (flushAllBatches backend now store).store key = some recs ∧
      (flushAllBatches backend now store).reported.filter
        (fun p => p.1 == key) = []) ∧
    (¬recs = [] →
      (∀ u, backend key (totalUsage recs) (now / 1000)
          StripeUsageAction.increment = Except.ok u →
        lookupBatch (flushAllBatches backend now store).store key = some [] ∧
        (flushAllBatches backend now store).reported.filter
          (fun p => p.1 == key) = []) ∧
      (∀ e, backend key (totalUsage recs) (now / 1000)
          StripeUsageAction.increment = Except.error e →
        lookupBatch (flushAllBatches backend now store).store key = some recs ∧
        (flushAllBatches backend now store).reported.filter
          (fun p => p.1 == key) =
          [(key, mkStripeApiError (flushErrorMessage key e) e)])) := by
  have hmem := mem_storeKeys_of_lookup store key recs hrecs
  exact flushKeys_mem_spec backend now (storeKeys store) store key recs
    hmem hnd hrecs

/-- Witness for C3: with si_err failing first in the sweep, si_ok is
still flushed successfully and nothing is reported for it. -/
theorem flushAllBatches_per_key_isolation_witness :
    lookupBatch (flushAllBatches mixedBackend 0 mixedStore).store "si_ok" =
        some [] ∧
    (flushAllBatches mixedBackend 0 mixedStore).reported.filter
        (fun p => p.1 == "si_ok") = [] :=
  ((flushAllBatches_per_key_isolation mixedBackend 0 mixedStore (by decide)
    "si_ok" [sampleRecord 5] rfl).2.2 (by simp)).1 () rfl

/-- Claim C1: for every key whose batch is non-empty, flushBatch makes
exactly one backend-reporter call whose quantity is the sum of the
usageValue of every entry in that key's batch, with timestamp the current
time in seconds and action increment, and on backend success the batch
for that key is left empty; for a key whose batch is absent or empty,
flushBatch returns successfully without making any backend call. -/
theorem flushBatch_aggregates_and_clears
    (backend : UsageBackend) (now : Nat) (store : BatchStore) (key : String) :
    ((lookupBatch store key = none ∨ lookupBatch store key = some []) →
      flushBatch backend now store key = ⟨store, [], none⟩) ∧
    (∀ recs, lookupBatch store key = some recs → ¬recs = [] →
      (flushBatch backend now store key).calls =
        [⟨key, totalUsage recs, now / 1000, StripeUsageAction.increment⟩] ∧
      (backend key (totalUsage recs) (now / 1000) StripeUsageAction.increment =
          Except.ok () →
        flushBatch backend now store key =
          ⟨setBatch store key [],
            [⟨key, totalUsage recs, now / 1000, StripeUsageAction.increment⟩],
            none⟩)) := by
  constructor
  · intro h
    rcases h with h | h
    · simp [flushBatch, h]
    · simp [flushBatch, h]
  · intro recs hrecs hne
    have he : recs.isEmpty = false := by simpa [List.isEmpty_iff] using hne
    constructor
    · cases hb : backend key (totalUsage recs) (now / 1000)
          StripeUsageAction.increment with
      | ok u => simp [flushBatch, hrecs, he, hb]
      | error e => simp [flushBatch, hrecs, he, hb]
    · intro hb
      simp [flushBatch, hrecs, he, hb]

/-- Witness for C1: flushing the three-record batch under si_1 issues the
single aggregate call of quantity three and clears the batch. -/
theorem flushBatch_aggregates_and_clears_witness :
    flushBatch okBackend 60000 sampleStore "si_1" =
      ⟨setBatch sampleStore "si_1" [],
        [⟨"si_1", totalUsage [sampleRecord 1, sampleRecord 1, sampleRecord 1],
          60000 / 1000, StripeUsageAction.increment⟩], none⟩ :=
  ((flushBatch_aggregates_and_clears okBackend 60000 sampleStore "si_1").2
    [sampleRecord 1, sampleRecord 1, sampleRecord 1] rfl (by simp)).2 rfl

/-- Claim C2: if the backend call made by flushBatch fails, flushBatch
raises a StripeApiError carrying the original cause, the key, and a
descriptive message, and the batch for that key is left exactly as it was
before the flush attempt. -/
theorem flushBatch_failure_preserves_batch
    (backend : UsageBackend) (now : Nat) (store : BatchStore) (key : String)
    (recs : List BatchedUsageRecord) (e : JsError)
    (hrecs : lookupBatch store key = some recs) (hne : ¬recs = [])
    (hb : backend key (totalUsage recs) (now / 1000) StripeUsageAction.increment =
      Except.error e) :
    flushBatch backend now store key =
      ⟨store,
        [⟨key, totalUsage recs, now / 1000, StripeUsageAction.increment⟩],
        some (mkStripeApiError (flushErrorMessage key e) e)⟩ ∧
    (mkStripeApiError (flushErrorMessage key e) e).cause = e ∧
    (mkStripeApiError (flushErrorMessage key e) e).message =
      "Failed to flush usage records for subscription item " ++ key ++ ": " ++
        e.message := by
  have he : recs.isEmpty = false := by simpa [List.isEmpty_iff] using hne
  refine ⟨by simp [flushBatch, hrecs, he, hb], ?_, ?_⟩
  · unfold mkStripeApiError
    by_cases h : (truthyCode e.code && truthyStatus e.statusCode) = true <;>
      simp [h]
  · unfold mkStripeApiError flushErrorMessage
    by_cases h : (truthyCode e.code && truthyStatus e.statusCode) = true <;>
      simp [h]

/-- Witness for C2: a failing backend leaves the si_1 batch untouched and
surfaces the wrapped error. -/
theorem flushBatch_failure_preserves_batch_witness :
    flushBatch (constFailUsage sampleErr) 60000 sampleStore "si_1" =
      ⟨sampleStore,
        [⟨"si_1", totalUsage [sampleRecord 1, sampleRecord 1, sampleRecord 1],
          60000 / 1000, StripeUsageAction.increment⟩],
        some (mkStripeApiError (flushErrorMessage "si_1" sampleErr) sampleErr)⟩ :=
  (flushBatch_failure_preserves_batch (constFailUsage sampleErr) 60000 sampleStore
    "si_1" [sampleRecord 1, sampleRecord 1, sampleRecord 1] sampleErr rfl
    (by simp) rfl).1

theorem dispose_sets_disposed (backend : UsageBackend) (now : Nat)
    (st : BatchedStrategy) :
    (dispose backend now st).strategy.disposed = true := by
  unfold dispose
  by_cases h : st.disposed = true
  · simp [h]
  · by_cases hf : st.flushOnDispose = true <;> simp [h, hf]

/-- Claim C5: dispose never rejects (its result type carries no error:
flushAllBatches catches per-key failures and dispose catches the rest)
and always leaves the strategy Disposed, even when flushing during
disposal fails (the backend is arbitrary, including always-failing ones);
and dispose is idempotent: a second call finds the strategy already
Disposed, performs no flush attempt and no timer-clear attempt, and
returns immediately with the state unchanged. -/
theorem dispose_never_rejects_idempotent (backend : UsageBackend)
    (now now' : Nat) (st : BatchedStrategy) :
    (dispose backend now st).strategy.disposed = true ∧
    (st.disposed = true → dispose backend now st = ⟨st, [], []⟩) ∧
    dispose backend now' ((dispose backend now st).strategy) =
      ⟨(dispose backend now st).strategy, [], []⟩ := by
  refine ⟨dispose_sets_disposed backend now st, fun h => by simp [dispose, h],
    ?_⟩
  have h1 := dispose_sets_disposed backend now st
  revert h1
  generalize (dispose backend now st).strategy = st2
  intro h1
  simp [dispose, h1]

/-- Witness for C5: disposing an active strategy over an always-failing
backend still ends Disposed, and disposing an already-disposed strategy
is a no-op. -/
theorem dispose_never_rejects_idempotent_witness :
    (dispose (constFailUsage sampleErr) 0 sampleActive).strategy.disposed =
        true ∧
    dispose (constFailUsage sampleErr) 0 sampleDisposed =
      ⟨sampleDisposed, [], []⟩ :=
  ⟨(dispose_never_rejects_idempotent (constFailUsage sampleErr) 0 0
      sampleActive).1,
   (dispose_never_rejects_idempotent (constFailUsage sampleErr) 0 0
      sampleDisposed).2.1 rfl⟩

/-- Claim C6: the lifecycle transition is one-way: a Disposed strategy
(batched or immediate) is left Disposed and unchanged by every operation,
and after dispose resolves every subsequent recordUsage call rejects with
the lifecycle error, regardless of prior state or arguments. -/
theorem disposed_state_terminal (resolver : Resolver)
    (backend : UsageBackend) (mbackend : MeterBackend) (now now' : Nat)
    (st : BatchedStrategy) (ist : ImmediateStrategy) (customerId : String)
    (usageValue : Int) (apiEndpoint : Option String) :
    (st.disposed = true →
      recordUsage resolver backend now st customerId usageValue apiEndpoint =
        ⟨st, [], some (RecordError.lifecycle
          "Strategy has been disposed and cannot record usage")⟩) ∧
    (st.disposed = true → dispose backend now st = ⟨st, [], []⟩) ∧
    recordUsage resolver backend now' ((dispose backend now st).strategy)
        customerId usageValue apiEndpoint =
      ⟨(dispose backend now st).strategy, [],
        some (RecordError.lifecycle
          "Strategy has been disposed and cannot record usage")⟩ ∧
    (ist.disposed = true →
      immediateRecordUsage mbackend now ist customerId usageValue
          apiEndpoint =
        ⟨ist, [], some (RecordError.lifecycle
          "Strategy has been disposed and cannot record usage")⟩) ∧
    (immediateDispose ist).disposed = true ∧
    immediateRecordUsage mbackend now' (immediateDispose ist) customerId
        usageValue apiEndpoint =
      ⟨immediateDispose ist, [], some (RecordError.lifecycle
        "Strategy has been disposed and cannot record usage")⟩ := by
  refine ⟨fun h => by simp [recordUsage, h], fun h => by simp [dispose, h],
    ?_,
    fun h => by simp [immediateRecordUsage, h],
    by simp [immediateDispose],
    by simp [immediateRecordUsage, immediateDispose]⟩
  have h1 := dispose_sets_disposed backend now st
  revert h1
  generalize (dispose backend now st).strategy = st2
  intro h1
  simp [recordUsage, h1]

/-- Witness for C6: a disposed strategy rejects recordUsage with the
lifecycle error. -/
theorem disposed_state_terminal_witness :
    recordUsage keyResolver okBackend 0 sampleDisposed "cus_a" 1 none =
      ⟨sampleDisposed, [], some (RecordError.lifecycle
        "Strategy has been disposed and cannot record usage")⟩ :=
  (disposed_state_terminal keyResolver okBackend okMeterBackend 0 0
    sampleDisposed sampleImmediate "cus_a" 1 none).1 rfl

/-- Claim C7: on an active batching strategy, recordUsage with an empty
customerId or non-positive usageValue rejects with the matching
invalid-input error and causes no state mutation: the strategy (including
the batch store) is returned unchanged, no backend call is made, and the
result does not depend on the resolver or the backend (no resolver call,
no I/O). -/
theorem recordUsage_invalid_input (resolver : Resolver)
    (backend : UsageBackend) (now : Nat) (st : BatchedStrategy)
    (customerId : String) (usageValue : Int) (apiEndpoint : Option String)
    (hactive : st.disposed = false) :
    (recordUsage resolver backend now st "" usageValue apiEndpoint =
      ⟨st, [], some (RecordError.invalidInput "Customer ID is required")⟩) ∧
    (¬customerId = "" → usageValue ≤ 0 →
      recordUsage resolver backend now st customerId usageValue apiEndpoint =
        ⟨st, [], some (RecordError.invalidInput
          "Usage value must be greater than zero")⟩) := by
  constructor
  · simp [recordUsage, hactive]
  · intro hc hv
    simp [recordUsage, hactive, hc, hv]

/-- Witness for C7: the two rejection laws at concrete inputs. -/
theorem recordUsage_invalid_input_witness :
    recordUsage keyResolver okBackend 0 sampleActive "" 1 none =
      ⟨sampleActive, [],
        some (RecordError.invalidInput "Customer ID is required")⟩ ∧
    recordUsage keyResolver okBackend 0 sampleActive "cus_x" 0 none =
      ⟨sampleActive, [],
        some (RecordError.invalidInput
          "Usage value must be greater than zero")⟩ :=
  ⟨(recordUsage_invalid_input keyResolver okBackend 0 sampleActive "cus_x" 1
      none rfl).1,
   (recordUsage_invalid_input keyResolver okBackend 0 sampleActive "cus_x" 0
      none rfl).2 (by decide) (by decide)⟩

/-- Counterexample for C8: with a resolver that completes successfully
with the empty subscription-item key, recordUsage on a fresh strategy
does not reject and the usage entry is appended to the batch stored
under the empty-string key. -/
theorem recordUsage_empty_key_counterexample :
    (recordUsage emptyKeyResolver okBackend 0 (mkBatchedStrategy defaultConfig)
        "cus_a" 1 none).error = none ∧
    lookupBatch (recordUsage emptyKeyResolver okBackend 0
        (mkBatchedStrategy defaultConfig) "cus_a" 1 none).strategy.pendingUsage
      "" = some [⟨"cus_a", 1, none, 0⟩] :=
  ⟨rfl, rfl⟩

/-- Claim C8 (amended): a resolver call that completes successfully with
a null or empty subscription-item key is NOT treated as a resolution
failure: recordUsage performs no emptiness check on the resolved key,
resolves successfully, and appends the usage entry to the batch keyed by
the empty string; only a resolver that throws causes rejection. -/
theorem recordUsage_empty_key_appends (resolver : Resolver)
    (backend : UsageBackend) (now : Nat) (st : BatchedStrategy)
    (customerId : String) (usageValue : Int) (apiEndpoint : Option String)
    (hd : st.disposed = false) (hc : ¬customerId = "") (hv : 0 < usageValue)
    (hres : resolver customerId = Except.ok "")
    (hlen : ((lookupBatch st.pendingUsage "").getD []).length + 1 <
      st.maxBatchSize) :
    recordUsage resolver backend now st customerId usageValue apiEndpoint =
      ⟨{ st with pendingUsage := (setBatch st.pendingUsage ""
          ((lookupBatch st.pendingUsage "").getD [] ++
            [⟨customerId, usageValue, apiEndpoint, now⟩])) }, [], none⟩ := by
  have hu := recordUsage_active_resolved resolver backend now st customerId
    usageValue apiEndpoint "" hd hc hv hres
  have hcond : ¬(st.maxBatchSize ≤ ((lookupBatch st.pendingUsage "").getD [] ++
      [(⟨customerId, usageValue, apiEndpoint, now⟩ :
        BatchedUsageRecord)]).length) := by
    simp only [List.length_append, List.length_cons, List.length_nil]
    omega
  rw [hu, if_neg hcond]

/-- Witness for C8 (amended): the concrete run of the counterexample,
obtained from the amended theorem. -/
theorem recordUsage_empty_key_appends_witness :
    recordUsage emptyKeyResolver okBackend 0 (mkBatchedStrategy defaultConfig)
        "cus_a" 1 none =
      ⟨{ mkBatchedStrategy defaultConfig with pendingUsage :=
          (setBatch (mkBatchedStrategy defaultConfig).pendingUsage ""
            ((lookupBatch (mkBatchedStrategy defaultConfig).pendingUsage
                "").getD [] ++ [⟨"cus_a", 1, none, 0⟩])) }, [], none⟩ :=
  recordUsage_empty_key_appends emptyKeyResolver okBackend 0
    (mkBatchedStrategy defaultConfig) "cus_a" 1 none rfl (by decide)
    (by decide) rfl (by decide)

/-- Counterexample for C9: a backend failure carrying a structured code
but no statusCode is wrapped by flushBatch with BOTH structured fields
dropped (stripeCode and statusCode are none on the wrapping error), so a
lone code is not preserved. -/
theorem stripe_wrap_drops_lone_code_counterexample :
    codeOnlyErr.code = some "rate_limit" ∧
    (flushBatch (constFailUsage codeOnlyErr) 0 sampleStore "si_1").error =
      some ⟨"Failed to flush usage records for subscription item si_1: rate limited",
        none, none, codeOnlyErr⟩ :=
  ⟨rfl, rfl⟩

/-- Claim C9 (amended): both wrap sites (the immediate strategy's
recordUsage and the batching strategy's flushBatch) build the wrapping
StripeApiError through the same pattern, which always preserves the
original cause, and preserves the structured code and status exactly when
the original error carries both with truthy values; when only one (or
neither) is attached, both structured fields are dropped. -/
theorem stripe_wrap_preservation (e : JsError) (m : String) :
    (mkStripeApiError m e).cause = e ∧
    (mkStripeApiError m e).message = m ∧
    ((truthyCode e.code && truthyStatus e.statusCode) = true →
      (mkStripeApiError m e).stripeCode = e.code ∧
      (mkStripeApiError m e).statusCode = e.statusCode) ∧
    ((truthyCode e.code && truthyStatus e.statusCode) = false →
      (mkStripeApiError m e).stripeCode = none ∧
      (mkStripeApiError m e).statusCode = none) ∧
    (∀ now store key recs, lookupBatch store key = some recs → ¬recs = [] →
      (flushBatch (constFailUsage e) now store key).error =
        some (mkStripeApiError (flushErrorMessage key e) e)) ∧
    (∀ now ist customerId usageValue apiEndpoint,
      ist.disposed = false → ¬customerId = "" → 0 < usageValue →
      (immediateRecordUsage (constFailMeter e) now ist customerId usageValue
          apiEndpoint).error =
        some (RecordError.stripeApi
          (mkStripeApiError (immediateErrorMessage customerId e) e))) := by
  refine ⟨?_, ?_, fun h => ?_, fun h => ?_, ?_, ?_⟩
  · unfold mkStripeApiError
    by_cases h : (truthyCode e.code && truthyStatus e.statusCode) = true <;>
      simp [h]
  · unfold mkStripeApiError
    by_cases h : (truthyCode e.code && truthyStatus e.statusCode) = true <;>
      simp [h]
  · simp [mkStripeApiError, h]
  · simp [mkStripeApiError, h]
  · intro now store key recs hrecs hne
    have he : recs.isEmpty = false := by simpa [List.isEmpty_iff] using hne
    simp [flushBatch, hrecs, he, constFailUsage]
  · intro now ist customerId usageValue apiEndpoint hdis hc hv
    have hnle : ¬(usageValue ≤ 0) := not_le.mpr hv
    simp [immediateRecordUsage, hdis, hc, hnle, constFailMeter]

/-- Witness for C9 (amended): an error carrying both code and status has
them preserved by the wrap; flushBatch over a failing backend produces
exactly that wrap. -/
theorem stripe_wrap_preservation_witness :
    (mkStripeApiError "m" sampleErr).stripeCode = sampleErr.code ∧
    (flushBatch (constFailUsage sampleErr) 0 sampleStore "si_1").error =
      some (mkStripeApiError (flushErrorMessage "si_1" sampleErr) sampleErr) :=
  ⟨((stripe_wrap_preservation sampleErr "m").2.2.1 rfl).1,
   (stripe_wrap_preservation sampleErr "m").2.2.2.2.1 0 sampleStore "si_1"
     [sampleRecord 1, sampleRecord 1, sampleRecord 1] rfl (by simp)⟩

/-- Claim C10: a configured batchIntervalMs or maxBatchSize equal to zero
is treated exactly like an absent value: the constructor substitutes the
defaults 60000 ms and 100 records, so the effective flush threshold of a
config with maxBatchSize zero is 100, not 0. -/
theorem zero_config_uses_defaults (config : BatchedUsageRecordConfig)
    (hi : config.batchIntervalMs = some 0 ∨ config.batchIntervalMs = none)
    (hm : config.maxBatchSize = some 0 ∨ config.maxBatchSize = none) :
    (mkBatchedStrategy config).batchIntervalMs = 60000 ∧
    (mkBatchedStrategy config).maxBatchSize = 100 := by
  constructor
  · rcases hi with h | h <;> simp [mkBatchedStrategy, jsOrDefault, h]
  · rcases hm with h | h <;> simp [mkBatchedStrategy, jsOrDefault, h]

/-- Witness for C10: the zero-valued config gets both defaults. -/
theorem zero_config_uses_defaults_witness :
    (mkBatchedStrategy ⟨some 0, some 0, none⟩).batchIntervalMs = 60000 ∧
    (mkBatchedStrategy ⟨some 0, some 0, none⟩).maxBatchSize = 100 :=
  zero_config_uses_defaults ⟨some 0, some 0, none⟩ (Or.inl rfl) (Or.inl rfl)

end ApiMetering
